import Mathlib

/-!
Verification of the face-recognition clustering pipeline.

The development shallowly embeds the four Python sources:

* `cluster_generator.py` — `ClusterGenerator` with `fit_predict` (wrapping the
  external sklearn DBSCAN / HDBSCAN estimators, modelled as black-box oracles
  that return one integer label per input row) and `generate_clusters`
  (label resolution plus result assembly);
* `face_extractor.py` — `FaceExtractor.extract_faces_from_image_path` and
  `extract_faces_from_folder` (the external InsightFace detector and
  `cv2.imread` are modelled as a `Detector` record);
* `process.py` — the `/process` handler (`process_images`), with its
  try/except wrapper, and the `/compare` handler (`compare_faces`, cosine
  similarity over real vectors);
* `execute.py` — the CLI `main`, including its lookup of the key
  `celebrity_matches` on the clustering result.

Machine floats are modelled as exact numbers (`ℚ` in the pipeline, `ℝ` for
the cosine-similarity endpoint); Python dicts are modelled as
insertion-ordered association lists with unique keys, with update
operations that rewrite the first matching entry, exactly the observable
dict semantics for the unique-key states the code constructs.
-/

namespace FaceRec

/-- Python exception values that the sources can raise (`ValueError`,
`ImportError`, `KeyError`, `IndexError`), together with the error names the
specification's taxonomy introduces (`ConfigurationError`,
`DimensionMismatchError`, `LengthMismatchError`). The latter never occur in
the source; they are included so that claims which mention them can be
stated and refuted. -/
inductive Err where
  | valueError : String → Err
  | importError : String → Err
  | keyError : String → Err
  | indexError : Err
  | configurationError : String → Err
  | dimensionMismatchError : Err
  | lengthMismatchError : Err
  deriving DecidableEq, Repr

/-- `str(e)` as used by the handlers when rendering an exception into the
`error` field of a JSON failure payload. -/
def errMsg : Err → String
  | Err.valueError m => m
  | Err.importError m => m
  | Err.keyError k => k
  | Err.indexError => "list index out of range"
  | Err.configurationError m => m
  | Err.dimensionMismatchError => "dimension mismatch"
  | Err.lengthMismatchError => "length mismatch"

/-- Python dict lookup `d.get(k)` on an insertion-ordered association list:
the first entry with the given key, if any. -/
def dictLookup {β : Type} : List (String × β) → String → Option β
  | [], _ => none
  | q :: rest, k => if q.1 = k then some q.2 else dictLookup rest k

/-- Python dict subscript `d[k]`: the stored value, or a `KeyError` when the
key is absent. -/
def getItem {β : Type} (d : List (String × β)) (k : String) : Except Err β :=
  match dictLookup d k with
  | some v => Except.ok v
  | none => Except.error (Err.keyError k)

/-- Python dict assignment `d[k] = v`: overwrite the first entry with the
given key, or append a fresh entry at the end. -/
def dictSet {β : Type} : List (String × β) → String → β → List (String × β)
  | [], k, v => [(k, v)]
  | q :: rest, k, v => if q.1 = k then (k, v) :: rest else q :: dictSet rest k v

/-- The member-list update in `generate_clusters`:
`if cluster_name not in clusters: clusters[cluster_name] = []` followed by
`clusters[cluster_name].append(path)` — append `p` to the list stored under
`name`, creating a fresh singleton entry when the key is absent. -/
def dictAppendMember : List (String × List String) → String → String → List (String × List String)
  | [], name, p => [(name, [p])]
  | q :: rest, name, p =>
      if q.1 = name then (q.1, q.2 ++ [p]) :: rest
      else q :: dictAppendMember rest name p

/-- The keys of an association-list dict, in insertion order. -/
def dictKeys {β : Type} (d : List (String × β)) : List String := d.map Prod.fst

/-- The label resolution inlined in `generate_clusters`:
`cluster_name = f"person_{label}" if label != -1 else "noise"`. -/
def clusterName (label : Int) : String :=
  if label ≠ -1 then "person_" ++ toString label else "noise"

/-- The configuration carried by a `ClusterGenerator` instance
(`__init__` stores `algorithm`, `eps`, `min_samples`, `metric`). -/
structure ClusterGenerator where
  algorithm : String
  eps : ℚ
  min_samples : Nat
  metric : String

/-- The external sklearn `DBSCAN(eps, min_samples, metric)` estimator,
modelled as a black-box labelling oracle.  `fit_predict` of a fitted sklearn
estimator returns exactly one integer label per input row, which is the one
documented property the pipeline relies on. -/
structure DBSCANAlg where
  run : ℚ → Nat → String → List (List ℚ) → List Int
  length_run : ∀ eps ms metric embs, (run eps ms metric embs).length = embs.length

/-- The external sklearn `HDBSCAN(min_cluster_size, metric)` estimator,
modelled the same way.  The source wraps its construction in a
`try/except ImportError`; we model the environment in which the estimator is
available, since the claims do not concern the missing-dependency path. -/
structure HDBSCANAlg where
  run : Nat → String → List (List ℚ) → List Int
  length_run : ∀ mcs metric embs, (run mcs metric embs).length = embs.length

/-- `ClusterGenerator.fit_predict`: select the estimator by the configured
algorithm name, raise `ValueError` on an unknown name, and otherwise return
the estimator's labels for the given embeddings, unmodified. -/
def ClusterGenerator.fit_predict (g : ClusterGenerator) (dbscan : DBSCANAlg)
    (hdbscan : HDBSCANAlg) (embeddings : List (List ℚ)) : Except Err (List Int) :=
  if g.algorithm = "dbscan" then
    Except.ok (dbscan.run g.eps g.min_samples g.metric embeddings)
  else if g.algorithm = "hdbscan" then
    Except.ok (hdbscan.run g.min_samples g.metric embeddings)
  else
    Except.error (Err.valueError ("Неизвестный алгоритм: " ++ g.algorithm))

/-- The two dicts the assembly loop of `generate_clusters` accumulates:
`clusters` (cluster name → member paths) and `embeddings_dict`
(path → embedding). -/
structure AssembleState where
  clusters : List (String × List String)
  embeddings_dict : List (String × List ℚ)
  deriving DecidableEq

/-- The `for i, face in enumerate(faces)` loop of `generate_clusters`:
position `i` reads `labels[i]` and `embeddings[i]` (an `IndexError` when out
of range), stores the embedding under the face's path key, resolves the
label and appends the path to that cluster's member list.  Polymorphic in
the face record type, mirroring the duck-typed `face[path_key]` access. -/
def assembleLoop {α : Type} (pk : α → String) (labels : List Int)
    (embs : List (List ℚ)) : Nat → List α → AssembleState → Except Err AssembleState
  | _, [], st => Except.ok st
  | i, face :: rest, st =>
    match labels[i]?, embs[i]? with
    | some label, some embedding =>
      assembleLoop pk labels embs (i + 1) rest
        { clusters := dictAppendMember st.clusters (clusterName label) (pk face)
          embeddings_dict := dictSet st.embeddings_dict (pk face) embedding }
    | _, _ => Except.error Err.indexError

/-- The dict returned by `generate_clusters`:
`{"success": True, "clusters": clusters, "embeddings": embeddings_dict}`,
modelled as a record whose fields are the dict's keys. -/
structure GenResult where
  success : Bool
  clusters : List (String × List String)
  embeddings : List (String × List ℚ)
  deriving DecidableEq

/-- `ClusterGenerator.generate_clusters`: run `fit_predict`, then the
assembly loop from empty dicts, and return the result dict with
`success = True`. -/
def ClusterGenerator.generate_clusters {α : Type} (g : ClusterGenerator)
    (dbscan : DBSCANAlg) (hdbscan : HDBSCANAlg) (faces : List α)
    (embeddings : List (List ℚ)) (path_key : α → String) : Except Err GenResult := do
  let labels ← g.fit_predict dbscan hdbscan embeddings
  let st ← assembleLoop path_key labels embeddings 0 faces ⟨[], []⟩
  Except.ok { success := true, clusters := st.clusters, embeddings := st.embeddings_dict }

/-! ## Face extraction (`face_extractor.py`) -/

/-- An in-memory image handle, as returned by `cv2.imread`; its contents are
only ever passed to the external detector, so an abstract handle suffices. -/
abbrev Image : Type := Nat

/-- A detection bounding box `[x1, y1, x2, y2]` (already cast to int). -/
structure BBox where
  x1 : Int
  y1 : Int
  x2 : Int
  y2 : Int
  deriving DecidableEq

/-- A raw detection produced by the external InsightFace model
(`self.app.get(img)`): bounding box, detection score and the normalized
embedding.  The keypoints and the drawn copy of the image are presentation
data no claim touches and are omitted. -/
structure RawFace where
  bbox : BBox
  det_score : ℚ
  normed_embedding : List ℚ
  deriving DecidableEq

/-- The external collaborators of `FaceExtractor`: `cv2.imread` (which
returns `None` on an unloadable file) and the InsightFace detector. -/
structure Detector where
  load : String → Option Image
  detect : Image → List RawFace

/-- The per-face record yielded by `extract_faces_from_image_path`
(`bbox`, `det_score`, `embedding`, `original_image_path`). -/
structure FaceData where
  bbox : BBox
  det_score : ℚ
  embedding : List ℚ
  original_image_path : String
  deriving DecidableEq

/-- `FaceExtractor.extract_faces_from_image_path`: when `cv2.imread` fails
the error is logged and the generator yields nothing; otherwise every
detection is filtered by `det_score < det_thresh` and by the bounding-box
width/height against `min_size`, and each survivor is yielded with its
source path. -/
def extract_faces_from_image_path (d : Detector) (image_path : String)
    (min_size : Int) (det_thresh : ℚ) : List FaceData :=
  match d.load image_path with
  | none => []
  | some img =>
    (d.detect img).filterMap fun face =>
      if face.det_score < det_thresh then none
      else
        let w := face.bbox.x2 - face.bbox.x1
        let h := face.bbox.y2 - face.bbox.y1
        if w < min_size ∨ h < min_size then none
        else some ⟨face.bbox, face.det_score, face.normed_embedding, image_path⟩

/-- `os.path.join`, for the forward-slash paths this code builds. -/
def pathJoin (a b : String) : String := a ++ "/" ++ b

/-- `filename.lower().endswith(('.jpg', '.jpeg', '.png'))`. -/
def hasImageSuffix (filename : String) : Bool :=
  let low := (filename.data.map Char.toLower)
  ".jpg".data.isSuffixOf low || ".jpeg".data.isSuffixOf low || ".png".data.isSuffixOf low

/-- `FaceExtractor.extract_faces_from_folder`: list the folder (the
directory listing is an input here), keep image files, join each name onto
the folder path and concatenate the per-image extraction results. -/
def extract_faces_from_folder (d : Detector) (folder_path : String)
    (listing : List String) (min_size : Int) (det_thresh : ℚ) : List FaceData :=
  let image_paths := (listing.filter hasImageSuffix).map (pathJoin folder_path)
  (image_paths.map fun p => extract_faces_from_image_path d p min_size det_thresh).flatten

/-! ## The `/process` handler (`process.py`) -/

/-- `os.path.basename`: the final path component. -/
def basenameAux : List Char → List Char → List Char
  | [], acc => acc
  | c :: rest, acc =>
      if c = '/' then basenameAux rest [] else basenameAux rest (acc ++ [c])

/-- `os.path.basename`, on the forward-slash paths this code builds. -/
def basename (p : String) : String := String.mk (basenameAux p.data [])

/-- `UPLOAD_FOLDER = '../uploads'`. -/
def UPLOAD_FOLDER : String := "../uploads"

/-- The per-face record `face_info` appended to `all_faces` by the
`/process` handler. -/
structure Face where
  face_id : String
  original_image_path : String
  original_image_name : String
  boxed_image_path : String
  bbox : BBox
  det_score : ℚ
  embedding : List ℚ
  deriving DecidableEq

/-- The per-face entry of the handler's `faces_metadata` response mapping. -/
structure FaceMeta where
  original_image : String
  boxed_image : String
  bbox : BBox
  confidence : ℚ
  deriving DecidableEq

/-- The inner loop of the handler's ingestion step for one image: face `j`
of the image is assigned `face_id = f"{task_id}_img{len(all_faces)}_face{face_counter}"`,
where `len(all_faces)` is `prior + j` and `face_counter` is `j`, and its
relative original/boxed paths are built under the task folder. -/
def mint_faces_for_image (task_id : String) (image_path : String) (prior : Nat)
    (ds : List FaceData) : List Face :=
  ds.enum.map fun p =>
    let j := p.1
    let fd := p.2
    let face_id := task_id ++ "_img" ++ toString (prior + j) ++ "_face" ++ toString j
    { face_id := face_id
      original_image_path := pathJoin task_id (basename image_path)
      original_image_name := basename image_path
      boxed_image_path := pathJoin task_id (face_id ++ "_boxed.jpg")
      bbox := fd.bbox
      det_score := fd.det_score
      embedding := fd.embedding }

/-- The handler's outer ingestion loop over `saved_paths`, accumulating
`all_faces`; each image contributes the minted records for its extraction
result (writing the boxed image is a side effect with no bearing on the
response data). -/
def ingest_faces (d : Detector) (task_id : String) (min_size : Int)
    (det_thresh : ℚ) : List String → List Face → List Face
  | [], all_faces => all_faces
  | image_path :: rest, all_faces =>
    let ds := extract_faces_from_image_path d image_path min_size det_thresh
    ingest_faces d task_id min_size det_thresh rest
      (all_faces ++ mint_faces_for_image task_id image_path all_faces.length ds)

/-- A JSON value of the handlers' response payloads (only the shapes the
code actually produces). -/
inductive JVal where
  | jbool : Bool → JVal
  | jstr : String → JVal
  | jnum : Int → JVal
  | jclusters : List (String × List String) → JVal
  | jembdict : List (String × List ℚ) → JVal
  | jmeta : List (String × FaceMeta) → JVal
  deriving DecidableEq

/-- The saved upload paths: files with a non-empty filename, saved under
`UPLOAD_FOLDER/task_id/`. -/
def saved_paths_of (files : List String) (task_id : String) : List String :=
  (files.filter fun f => f ≠ "").map (pathJoin (pathJoin UPLOAD_FOLDER task_id))

/-- The body of the `/process` handler (the code inside its `try`), with
uploaded files given by filename.  Returns the JSON payload and HTTP status,
or the exception the body raises. -/
def process_images_body (d : Detector) (dbscan : DBSCANAlg) (hdbscan : HDBSCANAlg)
    (g : ClusterGenerator) (files : List String) (task_id : String)
    (min_size : Int) (det_thresh : ℚ) : Except Err (List (String × JVal) × Nat) := do
  if files = [] then
    return ([("success", JVal.jbool false), ("error", JVal.jstr "Файлы не найдены")], 400)
  let saved_paths := saved_paths_of files task_id
  let all_faces := ingest_faces d task_id min_size det_thresh saved_paths []
  let total_faces := all_faces.length
  if total_faces = 0 then
    return ([("success", JVal.jbool false), ("error", JVal.jstr "Лица не обнаружены"),
             ("total_faces", JVal.jnum 0)], 200)
  let embeddings_array := all_faces.map fun f => f.embedding
  let result ← g.generate_clusters dbscan hdbscan all_faces embeddings_array
    (fun f => f.face_id)
  let clusters := result.clusters
  let embeddings_dict := result.embeddings
  let faces_metadata := all_faces.map fun f =>
    (f.face_id, FaceMeta.mk f.original_image_path f.boxed_image_path f.bbox f.det_score)
  let unique_persons := ((dictKeys clusters).filter fun k => k ≠ "noise").length
  return ([("success", JVal.jbool true), ("task_id", JVal.jstr task_id),
           ("clusters", JVal.jclusters clusters),
           ("embeddings", JVal.jembdict embeddings_dict),
           ("faces_metadata", JVal.jmeta faces_metadata),
           ("total_faces", JVal.jnum total_faces),
           ("unique_persons", JVal.jnum unique_persons)], 200)

/-- The `/process` handler: its `try/except` renders any exception as the
structured payload `{'success': False, 'error': str(e)}` with status 500. -/
def process_images (d : Detector) (dbscan : DBSCANAlg) (hdbscan : HDBSCANAlg)
    (g : ClusterGenerator) (files : List String) (task_id : String)
    (min_size : Int) (det_thresh : ℚ) : List (String × JVal) × Nat :=
  match process_images_body d dbscan hdbscan g files task_id min_size det_thresh with
  | Except.ok r => r
  | Except.error e => ([("success", JVal.jbool false), ("error", JVal.jstr (errMsg e))], 500)

/-! ## The CLI entry point (`execute.py`) -/

/-- The dict literally returned by `generate_clusters`, with its keys in
source order, as the callers of `generate_clusters` see it. -/
def GenResult.toDict (r : GenResult) : List (String × JVal) :=
  [("success", JVal.jbool r.success),
   ("clusters", JVal.jclusters r.clusters),
   ("embeddings", JVal.jembdict r.embeddings)]

/-- `execute.py main`: build the extractor and cluster generator from the
CLI arguments, extract faces from the image folder, exit early when none
were found, otherwise cluster and print `result["celebrity_matches"]`.
Returns `()` on a completed run or the exception that escapes. -/
def main (d : Detector) (dbscan : DBSCANAlg) (hdbscan : HDBSCANAlg)
    (listing : List String) (image_folder : String) (algorithm : String)
    (eps : ℚ) (min_samples : Nat) (metric : String) (min_size : Int)
    (det_thresh : ℚ) : Except Err Unit := do
  let cluster_gen : ClusterGenerator := ⟨algorithm, eps, min_samples, metric⟩
  let faces := extract_faces_from_folder d image_folder listing min_size det_thresh
  if faces = [] then
    return ()
  let embeddings := faces.map fun f => f.embedding
  let result ← cluster_gen.generate_clusters dbscan hdbscan faces embeddings
    (fun f => f.original_image_path)
  let _ ← getItem result.toDict "celebrity_matches"
  return ()

/-! ## The `/compare` handler (`process.py`) -/

/-- The dot product of two vectors, pairing componentwise as far as both
vectors reach. -/
def listDot (v w : List ℝ) : ℝ := (List.zipWith (fun a b => a * b) v w).sum

/-- `sklearn.metrics.pairwise.cosine_similarity` on a pair of single-row
inputs: the dot product over the product of the L2 norms.  (sklearn leaves a
zero-norm row unnormalized, yielding similarity 0, which agrees with Lean's
division-by-zero convention.) -/
noncomputable def cosine_similarity (v w : List ℝ) : ℝ :=
  listDot v w / (Real.sqrt (listDot v v) * Real.sqrt (listDot w w))

/-- The `/compare` response `{"similarity": ..., "match": similarity > 0.6}`. -/
structure CompareResponse where
  similarity : ℝ
  matched : Prop

/-- The `/compare` handler on two embedding vectors. -/
noncomputable def compare_faces (emb1 emb2 : List ℝ) : CompareResponse :=
  { similarity := cosine_similarity emb1 emb2
    matched := cosine_similarity emb1 emb2 > 0.6 }

/-! ## Dict and assembly-loop lemmas -/

/-- How often an identifier occurs across all member lists of the
`clusters` dict. -/
def countMembers (cl : List (String × List String)) (x : String) : Nat :=
  (cl.map fun q => q.2.count x).sum

lemma countMembers_cons (q : String × List String) (cl : List (String × List String))
    (x : String) : countMembers (q :: cl) x = q.2.count x + countMembers cl x := by
  simp [countMembers]

lemma count_singleton_eq (p x : String) : [p].count x = if p = x then 1 else 0 := by
  by_cases h : p = x <;> simp [List.count_cons, h]

lemma countMembers_dictAppendMember (cl : List (String × List String))
    (name p x : String) :
    countMembers (dictAppendMember cl name p) x
      = countMembers cl x + (if p = x then 1 else 0) := by
  induction cl with
  | nil => simp [dictAppendMember, countMembers, count_singleton_eq]
  | cons q rest ih =>
    by_cases h : q.1 = name
    · simp only [dictAppendMember, if_pos h, countMembers_cons, List.count_append,
        count_singleton_eq]
      omega
    · simp only [dictAppendMember, if_neg h, countMembers_cons, ih]
      omega

lemma dictKeys_dictSet {β : Type} (d : List (String × β)) (k : String) (v : β) :
    dictKeys (dictSet d k v)
      = if k ∈ dictKeys d then dictKeys d else dictKeys d ++ [k] := by
  induction d with
  | nil => simp [dictSet, dictKeys]
  | cons q rest ih =>
    by_cases h : q.1 = k
    · simp [dictSet, h, dictKeys]
    · have e1 : dictKeys (dictSet (q :: rest) k v)
          = q.1 :: dictKeys (dictSet rest k v) := by
        simp [dictSet, h, dictKeys]
      have e2 : dictKeys (q :: rest) = q.1 :: dictKeys rest := rfl
      rw [e1, ih, e2]
      by_cases h2 : k ∈ dictKeys rest
      · rw [if_pos h2, if_pos (List.mem_cons_of_mem _ h2)]
      · rw [if_neg h2, if_neg ?hn]
        · rfl
        case hn =>
          intro hmem
          rcases List.mem_cons.mp hmem with h3 | h3
          · exact h h3.symm
          · exact h2 h3

lemma dictKeys_dictAppendMember (cl : List (String × List String)) (name p : String) :
    dictKeys (dictAppendMember cl name p)
      = if name ∈ dictKeys cl then dictKeys cl else dictKeys cl ++ [name] := by
  induction cl with
  | nil => simp [dictAppendMember, dictKeys]
  | cons q rest ih =>
    by_cases h : q.1 = name
    · simp [dictAppendMember, h, dictKeys]
    · have e1 : dictKeys (dictAppendMember (q :: rest) name p)
          = q.1 :: dictKeys (dictAppendMember rest name p) := by
        simp [dictAppendMember, h, dictKeys]
      have e2 : dictKeys (q :: rest) = q.1 :: dictKeys rest := rfl
      rw [e1, ih, e2]
      by_cases h2 : name ∈ dictKeys rest
      · rw [if_pos h2, if_pos (List.mem_cons_of_mem _ h2)]
      · rw [if_neg h2, if_neg ?hn2]
        · rfl
        case hn2 =>
          intro hmem
          rcases List.mem_cons.mp hmem with h3 | h3
          · exact h h3.symm
          · exact h2 h3

lemma nodup_dictKeys_dictAppendMember (cl : List (String × List String))
    (name p : String) (h : (dictKeys cl).Nodup) :
    (dictKeys (dictAppendMember cl name p)).Nodup := by
  rw [dictKeys_dictAppendMember]
  by_cases hm : name ∈ dictKeys cl
  · simpa [hm] using h
  · simp [hm, List.nodup_append, h]

lemma assembleLoop_ok {α : Type} (pk : α → String) (labels : List Int)
    (embs : List (List ℚ)) (faces : List α) :
    ∀ (i : Nat) (st : AssembleState),
      i + faces.length ≤ labels.length → i + faces.length ≤ embs.length →
      ∃ st', assembleLoop pk labels embs i faces st = Except.ok st' := by
  induction faces with
  | nil => intro i st _ _; exact ⟨st, rfl⟩
  | cons f rest ih =>
    intro i st hl he
    have hli : i < labels.length := by simp only [List.length_cons] at hl; omega
    have hei : i < embs.length := by simp only [List.length_cons] at he; omega
    obtain ⟨st', hst'⟩ := ih (i + 1) ⟨dictAppendMember st.clusters
        (clusterName labels[i]) (pk f),
      dictSet st.embeddings_dict (pk f) embs[i]⟩
      (by simp only [List.length_cons] at hl; omega)
      (by simp only [List.length_cons] at he; omega)
    refine ⟨st', ?_⟩
    simp only [assembleLoop, List.getElem?_eq_getElem hli, List.getElem?_eq_getElem hei]
    exact hst'

lemma assembleLoop_count {α : Type} (pk : α → String) (labels : List Int)
    (embs : List (List ℚ)) (faces : List α) :
    ∀ (i : Nat) (st st' : AssembleState),
      assembleLoop pk labels embs i faces st = Except.ok st' →
      ∀ x, countMembers st'.clusters x
        = countMembers st.clusters x + (faces.map pk).count x := by
  induction faces with
  | nil =>
    intro i st st' h x
    simp only [assembleLoop, Except.ok.injEq] at h
    subst h
    simp
  | cons f rest ih =>
    intro i st st' h x
    rcases hg1 : labels[i]? with _ | label
    · rcases hg2 : embs[i]? with _ | emb <;> simp only [assembleLoop, hg1, hg2] at h <;>
        exact absurd h (by simp)
    rcases hg2 : embs[i]? with _ | emb
    · simp only [assembleLoop, hg1, hg2] at h
      exact absurd h (by simp)
    simp only [assembleLoop, hg1, hg2] at h
    have hrec := ih (i + 1) _ st' h x
    rw [hrec]
    simp only [countMembers_dictAppendMember, List.map_cons, List.count_cons]
    by_cases hpf : pk f = x <;> simp [hpf]
    all_goals omega

lemma assembleLoop_embKeys {α : Type} (pk : α → String) (labels : List Int)
    (embs : List (List ℚ)) (faces : List α) :
    ∀ (i : Nat) (st st' : AssembleState),
      assembleLoop pk labels embs i faces st = Except.ok st' →
      (dictKeys st.embeddings_dict ++ faces.map pk).Nodup →
      dictKeys st'.embeddings_dict = dictKeys st.embeddings_dict ++ faces.map pk := by
  induction faces with
  | nil =>
    intro i st st' h _
    simp only [assembleLoop, Except.ok.injEq] at h
    subst h
    simp
  | cons f rest ih =>
    intro i st st' h hnd
    rcases hg1 : labels[i]? with _ | label
    · rcases hg2 : embs[i]? with _ | emb <;> simp only [assembleLoop, hg1, hg2] at h <;>
        exact absurd h (by simp)
    rcases hg2 : embs[i]? with _ | emb
    · simp only [assembleLoop, hg1, hg2] at h
      exact absurd h (by simp)
    simp only [assembleLoop, hg1, hg2] at h
    have hfresh : pk f ∉ dictKeys st.embeddings_dict := by
      intro hmem
      have hdisj := (List.nodup_append.mp hnd).2.2
      exact hdisj hmem (by simp)
    have hkeys2 : dictKeys (dictSet st.embeddings_dict (pk f) emb)
        = dictKeys st.embeddings_dict ++ [pk f] := by
      rw [dictKeys_dictSet, if_neg hfresh]
    have hrec := ih (i + 1) _ st' h (by
      rw [hkeys2]
      simpa [List.append_assoc] using hnd)
    rw [hrec, hkeys2]
    simp

lemma assembleLoop_clusterKeys_nodup {α : Type} (pk : α → String) (labels : List Int)
    (embs : List (List ℚ)) (faces : List α) :
    ∀ (i : Nat) (st st' : AssembleState),
      assembleLoop pk labels embs i faces st = Except.ok st' →
      (dictKeys st.clusters).Nodup → (dictKeys st'.clusters).Nodup := by
  induction faces with
  | nil =>
    intro i st st' h hnd
    simp only [assembleLoop, Except.ok.injEq] at h
    subst h
    exact hnd
  | cons f rest ih =>
    intro i st st' h hnd
    rcases hg1 : labels[i]? with _ | label
    · rcases hg2 : embs[i]? with _ | emb <;> simp only [assembleLoop, hg1, hg2] at h <;>
        exact absurd h (by simp)
    rcases hg2 : embs[i]? with _ | emb
    · simp only [assembleLoop, hg1, hg2] at h
      exact absurd h (by simp)
    simp only [assembleLoop, hg1, hg2] at h
    exact ih (i + 1) _ st' h (nodup_dictKeys_dictAppendMember _ _ _ hnd)

lemma assembleLoop_indexError {α : Type} (pk : α → String) (labels : List Int)
    (embs : List (List ℚ)) (faces : List α) :
    ∀ (i : Nat) (st : AssembleState),
      i ≤ labels.length → i ≤ embs.length →
      (labels.length < i + faces.length ∨ embs.length < i + faces.length) →
      assembleLoop pk labels embs i faces st = Except.error Err.indexError := by
  induction faces with
  | nil =>
    intro i st h1 h2 h3
    simp only [List.length_nil, Nat.add_zero] at h3
    omega
  | cons f rest ih =>
    intro i st h1 h2 h3
    by_cases hli : i < labels.length
    · by_cases hei : i < embs.length
      · have hg1 := List.getElem?_eq_getElem hli
        have hg2 := List.getElem?_eq_getElem hei
        simp only [assembleLoop, hg1, hg2]
        exact ih (i + 1) _ hli hei (by simp only [List.length_cons] at h3; omega)
      · have hg2 : embs[i]? = none := List.getElem?_eq_none (by omega)
        rcases hg1 : labels[i]? with _ | label <;> simp only [assembleLoop, hg1, hg2]
    · have hg1 : labels[i]? = none := List.getElem?_eq_none (by omega)
      rcases hg2 : embs[i]? with _ | emb <;> simp only [assembleLoop, hg1, hg2]

/-! ## Cosine-similarity lemmas -/

lemma listDot_self_nonneg (v : List ℝ) : 0 ≤ listDot v v := by
  induction v with
  | nil => simp [listDot]
  | cons a t ih =>
    have e : listDot (a :: t) (a :: t) = a * a + listDot t t := by simp [listDot]
    rw [e]
    nlinarith [mul_self_nonneg a, ih]

/-- Cauchy–Schwarz for the componentwise dot product, in squared form. -/
lemma listDot_sq_le (v w : List ℝ) : (listDot v w) ^ 2 ≤ listDot v v * listDot w w := by
  induction v generalizing w with
  | nil => simp [listDot]
  | cons a t ih =>
    cases w with
    | nil => simp [listDot]
    | cons b u =>
      have h1 := ih u
      have h2 := listDot_self_nonneg t
      have h3 := listDot_self_nonneg u
      have e1 : listDot (a :: t) (b :: u) = a * b + listDot t u := by simp [listDot]
      have e2 : listDot (a :: t) (a :: t) = a * a + listDot t t := by simp [listDot]
      have e3 : listDot (b :: u) (b :: u) = b * b + listDot u u := by simp [listDot]
      rw [e1, e2, e3]
      set S := listDot t u
      set A := listDot t t
      set B := listDot u u
      have hx : 0 ≤ a * a * B + A * (b * b) :=
        add_nonneg (mul_nonneg (mul_self_nonneg a) h3) (mul_nonneg h2 (mul_self_nonneg b))
      have key : 2 * (a * b) * S ≤ a * a * B + A * (b * b) := by
        rcases le_or_lt (2 * (a * b) * S) 0 with h | h
        · exact h.trans hx
        · have hsq : (2 * (a * b) * S) ^ 2 ≤ (a * a * B + A * (b * b)) ^ 2 := by
            nlinarith [sq_nonneg (a * a * B - A * (b * b)),
              mul_nonneg (sq_nonneg (a * b)) (sub_nonneg.mpr h1)]
          nlinarith [hsq, hx, h]
      nlinarith [key, h1]

lemma abs_listDot_le (v w : List ℝ) :
    |listDot v w| ≤ Real.sqrt (listDot v v) * Real.sqrt (listDot w w) := by
  have h2 := Real.sqrt_le_sqrt (listDot_sq_le v w)
  rw [Real.sqrt_sq_eq_abs, Real.sqrt_mul (listDot_self_nonneg v)] at h2
  exact h2

lemma cosine_similarity_bounds (v w : List ℝ) :
    -1 ≤ cosine_similarity v w ∧ cosine_similarity v w ≤ 1 := by
  have hden : 0 ≤ Real.sqrt (listDot v v) * Real.sqrt (listDot w w) :=
    mul_nonneg (Real.sqrt_nonneg _) (Real.sqrt_nonneg _)
  rcases eq_or_lt_of_le hden with h0 | hpos
  · constructor <;> simp [cosine_similarity, ← h0]
  · have habs := abs_listDot_le v w
    have h1 : |cosine_similarity v w| ≤ 1 := by
      rw [cosine_similarity, abs_div, abs_of_pos hpos]
      exact (div_le_one hpos).mpr habs
    exact abs_le.mp h1

/-! ## Concrete instances used by witnesses and counterexamples -/

/-- A concrete stand-in for the external DBSCAN estimator: every row is
labelled 0. -/
def zeroDBSCAN : DBSCANAlg :=
  ⟨fun _ _ _ embs => embs.map fun _ => 0, by intro eps ms m embs; simp⟩

/-- A concrete stand-in for the external HDBSCAN estimator: every row is
labelled with the noise sentinel -1. -/
def noiseHDBSCAN : HDBSCANAlg :=
  ⟨fun _ _ embs => embs.map fun _ => -1, by intro mcs m embs; simp⟩

/-- A concrete detector: every path loads, and every image yields one
confident, full-size detection with embedding `[1]`. -/
def demoDetector : Detector :=
  ⟨fun _ => some 0, fun _ => [⟨⟨0, 0, 100, 100⟩, 1, [1]⟩]⟩

/-- A detector whose image loading always fails (`cv2.imread` returns
`None` on every path). -/
def failingDetector : Detector :=
  ⟨fun _ => none, fun _ => []⟩

/-- Uniform dimensionality of an embedding batch: every vector has the
length of the first. -/
def dimsConsistent (embs : List (List ℚ)) : Prop :=
  ∀ e ∈ embs, e.length = (embs.headD []).length

/-! ## Claim theorems -/

/-- C1 (counterexample): the Label Resolver maps the noise sentinel -1 to
the reserved id "noise", not to "unclustered" as claimed. -/
theorem clusterName_not_unclustered :
    clusterName (-1) = "noise" ∧ "noise" ≠ "unclustered" :=
  ⟨rfl, by decide⟩

/-- C1 (amended): the Label Resolver's fixed policy maps the noise sentinel
-1 to the reserved id "noise", and every other integer n to
"person_" ++ n; the mapping is a pure function of the label, so any two
positions holding equal RawLabels resolve to the same ClusterId no matter
how many other clusters exist. -/
theorem clusterName_policy (n : Int) (labels : List Int) (i j : Nat) :
    clusterName (-1) = "noise" ∧
    (n ≠ -1 → clusterName n = "person_" ++ toString n) ∧
    (labels[i]? = labels[j]? →
      labels[i]?.map clusterName = labels[j]?.map clusterName) := by
  refine ⟨rfl, fun h => ?_, fun h => by rw [h]⟩
  simp [clusterName, h]

/-- Witness for the amended C1 policy at concrete labels. -/
theorem clusterName_policy_witness :
    clusterName 3 = "person_" ++ toString (3 : Int) ∧
    ([(5 : Int), 5])[0]?.map clusterName = ([(5 : Int), 5])[1]?.map clusterName := by
  have h := clusterName_policy 3 [5, 5] 0 1
  exact ⟨h.2.1 (by decide), h.2.2 (by decide)⟩

/-- C4 (counterexample): on a batch with inconsistent vector lengths,
`fit_predict` does not fail with `DimensionMismatchError`; it invokes the
configured estimator and returns its labels unchanged. -/
theorem fit_predict_no_dimension_guard :
    ¬ dimsConsistent [[(1 : ℚ), 2], [3]] ∧
    ClusterGenerator.fit_predict ⟨"dbscan", 4/10, 2, "cosine"⟩ zeroDBSCAN noiseHDBSCAN
        [[(1 : ℚ), 2], [3]] = Except.ok [0, 0] := by
  constructor
  · intro h
    have h2 := h [3] (by simp)
    simp at h2
  · rfl

/-- C4 (amended): the Cluster Engine performs no dimension validation: for
the configured algorithm it always hands the embedding sequence to the
underlying estimator unmodified (no truncation, no padding), inconsistent
vector lengths included; any dimensionality failure is the estimator's own,
and no `DimensionMismatchError` exists in the code. -/
theorem fit_predict_invokes_algorithm_unchanged (dbscan : DBSCANAlg)
    (hdbscan : HDBSCANAlg) (g : ClusterGenerator) (embs : List (List ℚ)) :
    (g.algorithm = "dbscan" →
      g.fit_predict dbscan hdbscan embs
        = Except.ok (dbscan.run g.eps g.min_samples g.metric embs)) ∧
    (g.algorithm = "hdbscan" →
      g.fit_predict dbscan hdbscan embs
        = Except.ok (hdbscan.run g.min_samples g.metric embs)) := by
  constructor <;> intro h <;> simp [ClusterGenerator.fit_predict, h]

/-- Witness for the amended C4 at a concrete inconsistent batch. -/
theorem fit_predict_invokes_algorithm_unchanged_witness :
    ClusterGenerator.fit_predict ⟨"dbscan", 4/10, 2, "cosine"⟩ zeroDBSCAN noiseHDBSCAN
        [[(1 : ℚ), 2], [3]]
      = Except.ok (zeroDBSCAN.run (4/10) 2 "cosine" [[(1 : ℚ), 2], [3]]) :=
  (fit_predict_invokes_algorithm_unchanged zeroDBSCAN noiseHDBSCAN
    ⟨"dbscan", 4/10, 2, "cosine"⟩ [[(1 : ℚ), 2], [3]]).1 rfl

/-- C5 (counterexample): with the unsupported metric "chebyshev" the engine
does not fail at all — it invokes the estimator and succeeds — so no
`ConfigurationError` (which the code does not define) is ever raised for an
unsupported metric. -/
theorem fit_predict_metric_unchecked :
    "chebyshev" ≠ "cosine" ∧ "chebyshev" ≠ "euclidean" ∧
    ClusterGenerator.fit_predict ⟨"dbscan", 4/10, 2, "chebyshev"⟩ zeroDBSCAN noiseHDBSCAN
        [[(1 : ℚ)], [2]] = Except.ok [0, 0] :=
  ⟨by decide, by decide, rfl⟩

/-- C5 (amended): an unsupported algorithm name makes `fit_predict` raise
`ValueError` (the code has no `ConfigurationError`), and any exception from
the `/process` body is surfaced by its catch-all as the structured payload
`{'success': False, 'error': str(e)}` with status 500, not as a crash; the
metric is never validated by the engine. -/
theorem unsupported_algorithm_value_error (dbscan : DBSCANAlg) (hdbscan : HDBSCANAlg)
    (g : ClusterGenerator) (embs : List (List ℚ)) :
    (g.algorithm ≠ "dbscan" → g.algorithm ≠ "hdbscan" →
      g.fit_predict dbscan hdbscan embs
        = Except.error (Err.valueError ("Неизвестный алгоритм: " ++ g.algorithm))) ∧
    (∀ d files task_id min_size det_thresh e,
      process_images_body d dbscan hdbscan g files task_id min_size det_thresh
        = Except.error e →
      process_images d dbscan hdbscan g files task_id min_size det_thresh
        = ([("success", JVal.jbool false), ("error", JVal.jstr (errMsg e))], 500)) := by
  constructor
  · intro h1 h2
    simp [ClusterGenerator.fit_predict, h1, h2]
  · intro d files task_id min_size det_thresh e h
    simp [process_images, h]

/-- Witness for the amended C5: a concrete unsupported algorithm raises
`ValueError` in the engine and is surfaced by `/process` as a 500 payload. -/
theorem unsupported_algorithm_value_error_witness :
    ClusterGenerator.fit_predict ⟨"kmeans", 4/10, 2, "cosine"⟩ zeroDBSCAN noiseHDBSCAN
        [[(1 : ℚ)]]
      = Except.error (Err.valueError ("Неизвестный алгоритм: " ++ "kmeans")) ∧
    process_images demoDetector zeroDBSCAN noiseHDBSCAN ⟨"kmeans", 1, 2, "cosine"⟩
        ["a.jpg"] "t" 30 0
      = ([("success", JVal.jbool false),
          ("error", JVal.jstr (errMsg (Err.valueError ("Неизвестный алгоритм: " ++ "kmeans"))))],
         500) := by
  have h := unsupported_algorithm_value_error zeroDBSCAN noiseHDBSCAN
    ⟨"kmeans", 4/10, 2, "cosine"⟩ [[(1 : ℚ)]]
  refine ⟨h.1 (by decide) (by decide), ?_⟩
  exact (unsupported_algorithm_value_error zeroDBSCAN noiseHDBSCAN
    ⟨"kmeans", 1, 2, "cosine"⟩ [[(1 : ℚ)]]).2 demoDetector ["a.jpg"] "t" 30 0
    (Err.valueError ("Неизвестный алгоритм: " ++ "kmeans")) (by rfl)

/-- C8 (counterexample): the assembly loop applied to one record but two
labels (sequences of different lengths) succeeds instead of failing with
`LengthMismatchError`; the trailing label is silently ignored. -/
theorem assemble_no_length_check_cex :
    ([("a" : String)].length ≠ [(0 : Int), 7].length) ∧
    assembleLoop (fun s => s) [(0 : Int), 7] [[(1 : ℚ)]] 0 ["a"] ⟨[], []⟩
      = Except.ok ⟨[("person_0", ["a"])], [("a", [(1 : ℚ)])]⟩ :=
  ⟨by decide, rfl⟩

/-- C8 (amended): the Result Assembler performs no length validation and no
`LengthMismatchError` exists in the code: when the records sequence is no
longer than both the labels and embeddings sequences, the loop succeeds
(trailing labels are silently ignored); when it is longer, the loop fails
with `IndexError` at the first out-of-range position.  (In the source the
labels come positionally from the same embeddings, so lengths agree on
every actual run.) -/
theorem assemble_length_behavior {α : Type} (pk : α → String) (faces : List α)
    (labels : List Int) (embs : List (List ℚ)) (st : AssembleState) :
    (faces.length ≤ labels.length → faces.length ≤ embs.length →
      ∃ st', assembleLoop pk labels embs 0 faces st = Except.ok st') ∧
    (labels.length < faces.length ∨ embs.length < faces.length →
      assembleLoop pk labels embs 0 faces st = Except.error Err.indexError) := by
  constructor
  · intro h1 h2
    exact assembleLoop_ok pk labels embs faces 0 st (by omega) (by omega)
  · intro h
    exact assembleLoop_indexError pk labels embs faces 0 st (by omega) (by omega)
      (by omega)

/-- Witness for the amended C8 on both sides of the length comparison. -/
theorem assemble_length_behavior_witness :
    (∃ st', assembleLoop (fun s => s) [(0 : Int), 7] [[(1 : ℚ)]] 0 ["a"] ⟨[], []⟩
      = Except.ok st') ∧
    assembleLoop (fun s => s) [(0 : Int)] [[(1 : ℚ)], [2]] 0 ["a", "b"] ⟨[], []⟩
      = Except.error Err.indexError := by
  constructor
  · exact (assemble_length_behavior (fun s => s) ["a"] [0, 7] [[1]] ⟨[], []⟩).1
      (by decide) (by decide)
  · exact (assemble_length_behavior (fun s => s) ["a", "b"] [0] [[1], [2]] ⟨[], []⟩).2
      (Or.inl (by decide))

/-- C2: for records with pairwise-distinct identifiers and label and
embedding sequences of equal length, the Result Assembler's member lists
form a partition of the input identifiers — each input identifier occurs in
exactly one member list exactly once, no other identifier occurs anywhere —
and the embeddings dict holds exactly one entry per identifier. -/
theorem assemble_partition {α : Type} (pk : α → String) (faces : List α)
    (labels : List Int) (embs : List (List ℚ))
    (hnd : (faces.map pk).Nodup) (hl : labels.length = faces.length)
    (he : embs.length = faces.length) :
    ∃ st, assembleLoop pk labels embs 0 faces ⟨[], []⟩ = Except.ok st ∧
      (∀ x ∈ faces.map pk, countMembers st.clusters x = 1) ∧
      (∀ x, x ∉ faces.map pk → countMembers st.clusters x = 0) ∧
      dictKeys st.embeddings_dict = faces.map pk := by
  obtain ⟨st, hok⟩ := assembleLoop_ok pk labels embs faces 0 ⟨[], []⟩ (by omega) (by omega)
  have hcount := assembleLoop_count pk labels embs faces 0 ⟨[], []⟩ st hok
  have hkeys := assembleLoop_embKeys pk labels embs faces 0 ⟨[], []⟩ st hok
    (by simpa [dictKeys] using hnd)
  refine ⟨st, hok, ?_, ?_, by simpa [dictKeys] using hkeys⟩
  · intro x hx
    rw [hcount x]
    simpa [countMembers] using List.count_eq_one_of_mem hnd hx
  · intro x hx
    rw [hcount x]
    simpa [countMembers] using List.count_eq_zero_of_not_mem hx

/-- Witness for C2 at a concrete two-record batch with a noise label. -/
theorem assemble_partition_witness :
    ∃ st, assembleLoop (fun s => s) [(0 : Int), -1] [[(1 : ℚ)], [2]] 0 ["a", "b"] ⟨[], []⟩
        = Except.ok st ∧
      (∀ x ∈ ["a", "b"].map (fun s => s), countMembers st.clusters x = 1) ∧
      (∀ x, x ∉ ["a", "b"].map (fun s => s) → countMembers st.clusters x = 0) ∧
      dictKeys st.embeddings_dict = ["a", "b"].map (fun s => s) :=
  assemble_partition (fun s => s) ["a", "b"] [0, -1] [[1], [2]]
    (by decide) (by decide) (by decide)

/-- Inversion for a successful `generate_clusters` call: the `success`
entry is `True`, the cluster keys are pairwise distinct, and the result
comes from a successful assembly run over the labels `fit_predict`
produced. -/
lemma generate_clusters_inv {α : Type} (g : ClusterGenerator) (dbscan : DBSCANAlg)
    (hdbscan : HDBSCANAlg) (faces : List α) (embs : List (List ℚ))
    (pk : α → String) (r : GenResult)
    (h : g.generate_clusters dbscan hdbscan faces embs pk = Except.ok r) :
    r.success = true ∧ (dictKeys r.clusters).Nodup := by
  unfold ClusterGenerator.generate_clusters at h
  cases hfp : g.fit_predict dbscan hdbscan embs with
  | error e =>
    rw [hfp] at h
    exact absurd h (by intro hh; cases hh)
  | ok labels =>
    rw [hfp] at h
    have h2 : (assembleLoop pk labels embs 0 faces ⟨[], []⟩ >>= fun st =>
        Except.ok (⟨true, st.clusters, st.embeddings_dict⟩ : GenResult))
        = Except.ok r := h
    cases hasm : assembleLoop pk labels embs 0 faces ⟨[], []⟩ with
    | error e =>
      rw [hasm] at h2
      exact absurd h2 (by intro hh; cases hh)
    | ok st =>
      rw [hasm] at h2
      have h3 : (Except.ok (⟨true, st.clusters, st.embeddings_dict⟩ : GenResult)
          : Except Err GenResult) = Except.ok r := h2
      cases h3
      refine ⟨rfl, ?_⟩
      exact assembleLoop_clusterKeys_nodup pk labels embs faces 0 ⟨[], []⟩ st hasm
        (by simp [dictKeys])

lemma except_ok_bind {ε α β : Type} (a : α) (f : α → Except ε β) :
    (Except.ok a >>= f) = f a := rfl

lemma except_error_bind {ε α β : Type} (e : ε) (f : α → Except ε β) :
    ((Except.error e : Except ε α) >>= f) = Except.error e := rfl

/-- On a duplicate-free list of keys, the length of the sublist avoiding
one key equals the cardinality of the key set minus that key. -/
lemma length_filter_ne_eq_card (l : List String) (hl : l.Nodup) (a : String) :
    ((l.filter fun k => k ≠ a).length) = (l.toFinset \ {a}).card := by
  have h1 : l.toFinset \ {a} = (l.filter fun k => k ≠ a).toFinset := by
    ext x
    simp [List.mem_filter, and_comm]
  rw [h1, List.toFinset_card_of_nodup (hl.filter _)]

/-- C3: a batch that yields zero face records short-circuits: the handler
returns the designed payload with `success = False` and `total_faces = 0`,
and the result is independent of the clustering oracles and the generator
configuration — the Cluster Engine is never invoked. -/
theorem process_images_no_faces_short_circuit (d : Detector)
    (dbscan dbscan2 : DBSCANAlg) (hdbscan hdbscan2 : HDBSCANAlg)
    (g g2 : ClusterGenerator) (files : List String) (task_id : String)
    (min_size : Int) (det_thresh : ℚ)
    (hfiles : files ≠ [])
    (hz : ingest_faces d task_id min_size det_thresh (saved_paths_of files task_id) []
      = []) :
    process_images d dbscan hdbscan g files task_id min_size det_thresh
      = ([("success", JVal.jbool false), ("error", JVal.jstr "Лица не обнаружены"),
          ("total_faces", JVal.jnum 0)], 200) ∧
    process_images d dbscan hdbscan g files task_id min_size det_thresh
      = process_images d dbscan2 hdbscan2 g2 files task_id min_size det_thresh := by
  have hbody : ∀ (da : DBSCANAlg) (ha : HDBSCANAlg) (gg : ClusterGenerator),
      process_images_body d da ha gg files task_id min_size det_thresh
        = Except.ok ([("success", JVal.jbool false),
            ("error", JVal.jstr "Лица не обнаружены"),
            ("total_faces", JVal.jnum 0)], 200) := by
    intro da ha gg
    simp only [process_images_body, hfiles, hz, if_neg, ite_false, List.length_nil]
    rfl
  constructor
  · simp [process_images, hbody]
  · simp [process_images, hbody]

/-- Witness for C3: one uploaded file with an empty filename is saved
nowhere, so the batch yields zero face records, and two runs with different
oracles and configurations return the same short-circuit payload. -/
theorem process_images_no_faces_short_circuit_witness :
    process_images failingDetector zeroDBSCAN noiseHDBSCAN ⟨"dbscan", 1, 2, "cosine"⟩
        [""] "t" 30 0
      = ([("success", JVal.jbool false), ("error", JVal.jstr "Лица не обнаружены"),
          ("total_faces", JVal.jnum 0)], 200) ∧
    process_images failingDetector zeroDBSCAN noiseHDBSCAN ⟨"dbscan", 1, 2, "cosine"⟩
        [""] "t" 30 0
      = process_images failingDetector zeroDBSCAN noiseHDBSCAN
          ⟨"hdbscan", 1, 5, "euclidean"⟩ [""] "t" 30 0 := by
  have h := process_images_no_faces_short_circuit failingDetector
    zeroDBSCAN zeroDBSCAN noiseHDBSCAN noiseHDBSCAN
    ⟨"dbscan", 1, 2, "cosine"⟩ ⟨"hdbscan", 1, 5, "euclidean"⟩
    [""] "t" 30 0 (by decide) (by rfl)
  exact h

/-- C9: a failed image load (`cv2.imread` returning `None`) never aborts
the batch: the failed image contributes zero face records, folder
extraction and handler ingestion continue over the remaining images with
the very result they would have without that image, so the final face
count excludes exactly that image's detections. -/
theorem unloadable_image_skipped (d : Detector) (min_size : Int) (det_thresh : ℚ) :
    (∀ p, d.load p = none →
      extract_faces_from_image_path d p min_size det_thresh = []) ∧
    (∀ folder (pre post : List String) bad, d.load (pathJoin folder bad) = none →
      extract_faces_from_folder d folder (pre ++ bad :: post) min_size det_thresh
        = extract_faces_from_folder d folder (pre ++ post) min_size det_thresh) ∧
    (∀ task_id bad (pre post : List String) (acc : List Face), d.load bad = none →
      ingest_faces d task_id min_size det_thresh (pre ++ bad :: post) acc
        = ingest_faces d task_id min_size det_thresh (pre ++ post) acc) := by
  have h1 : ∀ p, d.load p = none →
      extract_faces_from_image_path d p min_size det_thresh = [] := by
    intro p hp
    simp [extract_faces_from_image_path, hp]
  refine ⟨h1, ?_, ?_⟩
  · intro folder pre post bad hload
    by_cases hs : hasImageSuffix bad <;>
      simp [extract_faces_from_folder, List.filter_append, List.filter_cons, hs,
        h1 _ hload]
  · intro task_id bad pre post acc hload
    induction pre generalizing acc with
    | nil =>
      simp only [List.nil_append, ingest_faces]
      rw [h1 bad hload]
      simp [mint_faces_for_image]
    | cons p rest ih =>
      simp only [List.cons_append, ingest_faces]
      exact ih _

/-- Witness for C9 with a detector that fails to load every image. -/
theorem unloadable_image_skipped_witness :
    extract_faces_from_image_path failingDetector "Images/x.jpg" 30 0 = [] ∧
    extract_faces_from_folder failingDetector "Images" ["a.jpg", "x.jpg", "b.jpg"] 30 0
      = extract_faces_from_folder failingDetector "Images" ["a.jpg", "b.jpg"] 30 0 ∧
    ingest_faces failingDetector "t" 30 0 ["p1", "bad", "p2"] []
      = ingest_faces failingDetector "t" 30 0 ["p1", "p2"] [] := by
  have h := unloadable_image_skipped failingDetector 30 0
  exact ⟨h.1 "Images/x.jpg" rfl, h.2.1 "Images" ["a.jpg"] ["b.jpg"] "x.jpg" rfl,
    h.2.2 "t" "bad" ["p1"] ["p2"] [] rfl⟩

/-- C6: on every successful run of the `/process` handler, the response's
`total_faces` equals the number of face records ingested, and
`unique_persons` equals the number of distinct ClusterIds in the clusters
mapping excluding the one reserved "noise" id. -/
theorem process_images_summary_counts (d : Detector) (dbscan : DBSCANAlg)
    (hdbscan : HDBSCANAlg) (g : ClusterGenerator) (files : List String)
    (task_id : String) (min_size : Int) (det_thresh : ℚ)
    (all_faces : List Face) (r : GenResult)
    (ha : all_faces = ingest_faces d task_id min_size det_thresh
      (saved_paths_of files task_id) [])
    (hfiles : files ≠ []) (hfaces : all_faces ≠ [])
    (hok : g.generate_clusters dbscan hdbscan all_faces
      (all_faces.map fun f => f.embedding) (fun f => f.face_id) = Except.ok r) :
    dictLookup (process_images d dbscan hdbscan g files task_id min_size det_thresh).1
        "success" = some (JVal.jbool true) ∧
    dictLookup (process_images d dbscan hdbscan g files task_id min_size det_thresh).1
        "total_faces" = some (JVal.jnum all_faces.length) ∧
    dictLookup (process_images d dbscan hdbscan g files task_id min_size det_thresh).1
        "unique_persons"
      = some (JVal.jnum (((dictKeys r.clusters).toFinset \ {"noise"}).card)) := by
  obtain ⟨hsucc, hnodup⟩ := generate_clusters_inv g dbscan hdbscan all_faces
    (all_faces.map fun f => f.embedding) (fun f => f.face_id) r hok
  have hbody : process_images_body d dbscan hdbscan g files task_id min_size det_thresh
      = Except.ok
        ([("success", JVal.jbool true), ("task_id", JVal.jstr task_id),
          ("clusters", JVal.jclusters r.clusters),
          ("embeddings", JVal.jembdict r.embeddings),
          ("faces_metadata", JVal.jmeta (all_faces.map fun f =>
            (f.face_id,
              FaceMeta.mk f.original_image_path f.boxed_image_path f.bbox f.det_score))),
          ("total_faces", JVal.jnum all_faces.length),
          ("unique_persons",
            JVal.jnum ((dictKeys r.clusters).filter fun k => k ≠ "noise").length)],
         200) := by
    rw [ha] at hok ⊢
    rw [ha] at hfaces
    simp only [process_images_body, hfiles, List.length_eq_zero, hfaces, ite_false,
      if_neg, hok, except_ok_bind]
    rfl
  have hres : process_images d dbscan hdbscan g files task_id min_size det_thresh
      = ([("success", JVal.jbool true), ("task_id", JVal.jstr task_id),
          ("clusters", JVal.jclusters r.clusters),
          ("embeddings", JVal.jembdict r.embeddings),
          ("faces_metadata", JVal.jmeta (all_faces.map fun f =>
            (f.face_id,
              FaceMeta.mk f.original_image_path f.boxed_image_path f.bbox f.det_score))),
          ("total_faces", JVal.jnum all_faces.length),
          ("unique_persons",
            JVal.jnum ((dictKeys r.clusters).filter fun k => k ≠ "noise").length)],
         200) := by
    simp [process_images, hbody]
  rw [hres]
  refine ⟨by simp [dictLookup], by simp [dictLookup], ?_⟩
  rw [← length_filter_ne_eq_card (dictKeys r.clusters) hnodup "noise"]
  simp [dictLookup]

/-- Witness for C6: a one-image, one-face run with DBSCAN labelling the
single face 0, so the only cluster is "person_0" and the distinct non-noise
count is 1. -/
theorem process_images_summary_counts_witness :
    dictLookup (process_images demoDetector zeroDBSCAN noiseHDBSCAN
        ⟨"dbscan", 1, 1, "cosine"⟩ ["a.jpg"] "t" 30 0).1 "success"
      = some (JVal.jbool true) ∧
    dictLookup (process_images demoDetector zeroDBSCAN noiseHDBSCAN
        ⟨"dbscan", 1, 1, "cosine"⟩ ["a.jpg"] "t" 30 0).1 "total_faces"
      = some (JVal.jnum (ingest_faces demoDetector "t" 30 0
          (saved_paths_of ["a.jpg"] "t") []).length) ∧
    dictLookup (process_images demoDetector zeroDBSCAN noiseHDBSCAN
        ⟨"dbscan", 1, 1, "cosine"⟩ ["a.jpg"] "t" 30 0).1 "unique_persons"
      = some (JVal.jnum
          (((dictKeys [("person_0", ["t_img0_face0"])]).toFinset \ {"noise"}).card)) := by
  refine process_images_summary_counts demoDetector zeroDBSCAN noiseHDBSCAN
    ⟨"dbscan", 1, 1, "cosine"⟩ ["a.jpg"] "t" 30 0
    (ingest_faces demoDetector "t" 30 0 (saved_paths_of ["a.jpg"] "t") [])
    ⟨true, [("person_0", ["t_img0_face0"])], [("t_img0_face0", [(1 : ℚ)])]⟩
    rfl (by decide) (by decide) (by rfl)

/-- C10: whenever `generate_clusters` returns, the result dict carries
exactly the keys "success", "clusters" and "embeddings", with "success"
always True; consequently the CLI's `result["celebrity_matches"]` lookup
raises `KeyError` on every run that reaches it with a non-empty face
list. -/
theorem generate_clusters_keys_and_celebrity_lookup :
    (∀ (α : Type) (g : ClusterGenerator) (dbscan : DBSCANAlg) (hdbscan : HDBSCANAlg)
      (faces : List α) (embs : List (List ℚ)) (pk : α → String) (r : GenResult),
      g.generate_clusters dbscan hdbscan faces embs pk = Except.ok r →
      dictKeys r.toDict = ["success", "clusters", "embeddings"] ∧ r.success = true ∧
      getItem r.toDict "celebrity_matches"
        = Except.error (Err.keyError "celebrity_matches")) ∧
    (∀ (d : Detector) (dbscan : DBSCANAlg) (hdbscan : HDBSCANAlg) (listing : List String)
      (image_folder algorithm : String) (eps : ℚ) (min_samples : Nat) (metric : String)
      (min_size : Int) (det_thresh : ℚ),
      (algorithm = "dbscan" ∨ algorithm = "hdbscan") →
      extract_faces_from_folder d image_folder listing min_size det_thresh ≠ [] →
      main d dbscan hdbscan listing image_folder algorithm eps min_samples metric
        min_size det_thresh = Except.error (Err.keyError "celebrity_matches")) := by
  constructor
  · intro α g dbscan hdbscan faces embs pk r hok
    obtain ⟨hsucc, _⟩ := generate_clusters_inv g dbscan hdbscan faces embs pk r hok
    exact ⟨rfl, hsucc, rfl⟩
  · intro d dbscan hdbscan listing folder algorithm eps min_samples metric min_size
      det_thresh halg hne
    obtain ⟨labels, hfp, hlab⟩ : ∃ labels,
        (ClusterGenerator.mk algorithm eps min_samples metric).fit_predict dbscan hdbscan
          ((extract_faces_from_folder d folder listing min_size det_thresh).map
            fun f => f.embedding) = Except.ok labels ∧
        labels.length
          = ((extract_faces_from_folder d folder listing min_size det_thresh).map
              fun f => f.embedding).length := by
      rcases halg with h | h
      · refine ⟨dbscan.run eps min_samples metric _, ?_, dbscan.length_run _ _ _ _⟩
        simp [ClusterGenerator.fit_predict, h]
      · refine ⟨hdbscan.run min_samples metric _, ?_, hdbscan.length_run _ _ _⟩
        simp [ClusterGenerator.fit_predict, h]
    obtain ⟨st, hasm⟩ := assembleLoop_ok (fun f : FaceData => f.original_image_path) labels
      ((extract_faces_from_folder d folder listing min_size det_thresh).map
        fun f => f.embedding)
      (extract_faces_from_folder d folder listing min_size det_thresh) 0 ⟨[], []⟩
      (by rw [hlab, List.length_map]; omega) (by rw [List.length_map]; omega)
    have hgen : (ClusterGenerator.mk algorithm eps min_samples metric).generate_clusters
        dbscan hdbscan (extract_faces_from_folder d folder listing min_size det_thresh)
        ((extract_faces_from_folder d folder listing min_size det_thresh).map
          fun f => f.embedding)
        (fun f => f.original_image_path)
        = Except.ok ⟨true, st.clusters, st.embeddings_dict⟩ := by
      unfold ClusterGenerator.generate_clusters
      rw [hfp]
      show (assembleLoop (fun f : FaceData => f.original_image_path) labels
          ((extract_faces_from_folder d folder listing min_size det_thresh).map
            fun f => f.embedding)
          0 (extract_faces_from_folder d folder listing min_size det_thresh) ⟨[], []⟩
          >>= fun st => Except.ok (⟨true, st.clusters, st.embeddings_dict⟩ : GenResult))
        = _
      rw [hasm]
      rfl
    simp only [main, hne, ite_false, if_neg, hgen, except_ok_bind, except_error_bind]
    rfl

/-- Witness for C10: a one-face CLI run with the default configuration
reaches the `celebrity_matches` lookup and fails with `KeyError`. -/
theorem generate_clusters_keys_and_celebrity_lookup_witness :
    (dictKeys (GenResult.toDict ⟨true, [("person_0", ["a"])], [("a", [(1 : ℚ)])]⟩)
      = ["success", "clusters", "embeddings"] ∧
    (⟨true, [("person_0", ["a"])], [("a", [(1 : ℚ)])]⟩ : GenResult).success = true ∧
    getItem (GenResult.toDict ⟨true, [("person_0", ["a"])], [("a", [(1 : ℚ)])]⟩)
        "celebrity_matches" = Except.error (Err.keyError "celebrity_matches")) ∧
    main demoDetector zeroDBSCAN noiseHDBSCAN ["a.jpg"] "Images" "dbscan" 1 2 "cosine" 30 0
      = Except.error (Err.keyError "celebrity_matches") := by
  constructor
  · exact generate_clusters_keys_and_celebrity_lookup.1 String
      ⟨"dbscan", 1, 2, "cosine"⟩ zeroDBSCAN noiseHDBSCAN ["a"] [[1]] (fun s => s)
      ⟨true, [("person_0", ["a"])], [("a", [(1 : ℚ)])]⟩ (by rfl)
  · exact generate_clusters_keys_and_celebrity_lookup.2 demoDetector zeroDBSCAN
      noiseHDBSCAN ["a.jpg"] "Images" "dbscan" 1 2 "cosine" 30 0 (Or.inl rfl) (by decide)

/-- C7: the `/compare` operation returns a similarity in [-1, 1] and a
match flag that holds exactly when the similarity exceeds the fixed 0.6
threshold; identical unit vectors give similarity 1 and a match, orthogonal
vectors give similarity 0 and no match. -/
theorem compare_faces_spec :
    (∀ v w : List ℝ,
      -1 ≤ (compare_faces v w).similarity ∧ (compare_faces v w).similarity ≤ 1) ∧
    (∀ v w : List ℝ,
      (compare_faces v w).matched ↔ (compare_faces v w).similarity > 0.6) ∧
    (∀ v : List ℝ, listDot v v = 1 →
      (compare_faces v v).similarity = 1 ∧ (compare_faces v v).matched) ∧
    (∀ v w : List ℝ, listDot v w = 0 →
      (compare_faces v w).similarity = 0 ∧ ¬ (compare_faces v w).matched) := by
  refine ⟨fun v w => cosine_similarity_bounds v w, fun v w => Iff.rfl, ?_, ?_⟩
  · intro v h
    have hs : (compare_faces v v).similarity = 1 := by
      simp [compare_faces, cosine_similarity, h]
    refine ⟨hs, ?_⟩
    show (compare_faces v v).similarity > 0.6
    rw [hs]
    norm_num
  · intro v w h
    have hs : (compare_faces v w).similarity = 0 := by
      simp [compare_faces, cosine_similarity, h]
    refine ⟨hs, ?_⟩
    show ¬ (compare_faces v w).similarity > 0.6
    rw [hs]
    norm_num

/-- Witness for C7 on the unit vectors [1,0] and [0,1]. -/
theorem compare_faces_spec_witness :
    listDot [(1 : ℝ), 0] [(1 : ℝ), 0] = 1 ∧
    (compare_faces [(1 : ℝ), 0] [(1 : ℝ), 0]).similarity = 1 ∧
    (compare_faces [(1 : ℝ), 0] [(1 : ℝ), 0]).matched ∧
    listDot [(1 : ℝ), 0] [(0 : ℝ), 1] = 0 ∧
    (compare_faces [(1 : ℝ), 0] [(0 : ℝ), 1]).similarity = 0 ∧
    ¬ (compare_faces [(1 : ℝ), 0] [(0 : ℝ), 1]).matched := by
  have h1 : listDot [(1 : ℝ), 0] [(1 : ℝ), 0] = 1 := by norm_num [listDot]
  have h2 : listDot [(1 : ℝ), 0] [(0 : ℝ), 1] = 0 := by norm_num [listDot]
  obtain ⟨hs1, hm1⟩ := compare_faces_spec.2.2.1 [(1 : ℝ), 0] h1
  obtain ⟨hs2, hm2⟩ := compare_faces_spec.2.2.2 [(1 : ℝ), 0] [(0 : ℝ), 1] h2
  exact ⟨h1, hs1, hm1, h2, hs2, hm2⟩

end FaceRec
